import Mathlib

/-!
Verification of the CH Item Master pricing and offer-resolution engine.

This file gives a shallow embedding, in Lean, of the pricing core of the
`ch_item_master` Frappe app:

* the CH Item Price validation rules (positivity, hierarchy, interval
  non-overlap) from `doctype/ch_item_price/ch_item_price.py`,
* the offer resolver `_compute_best_offer`, the grid assembly
  `get_ready_reckoner_data` and the single-item rule engine
  `get_active_price` from `ready_reckoner_api.py`,
* the daily status sweep `auto_expire_records` from `scheduled_tasks.py`,

and proves (or refutes) the behavioural claims made about them.

Modelling conventions:

* Dates and datetimes are days on an integer timeline (`Int`); an unset
  date (SQL NULL / Python None) is `Option.none` and is read as "open
  ended" where the code treats it so.
* Monetary and percentage values (Python floats) are rationals; every
  claim exercises only exact additions and comparisons, which float and
  rational arithmetic agree on at these magnitudes.
* Frappe Link/Data fields that the code leaves blank are the empty
  string, matching the `or ""` / falsiness idioms of the source.
* Status and approval selects are finite enums, matching the doctype
  select options; the free-form `offer_type` classification stays a
  string, since the code compares it against string literals.
* Python `sorted(offers, key=lambda o: -(o.priority or 1))` is a stable
  descending sort; `List.insertionSort` with the relation
  "priority of the right argument is at most priority of the left" is
  the same stable descending order.
-/

namespace CHItemMaster

/-- Record status select options shared by CH Item Price, CH Item Offer and
CH Item Commercial Tag (prices never use `cancelled`, tags use only
`active`/`expired`). -/
inductive RecStatus
  | draft
  | scheduled
  | active
  | expired
  | cancelled
deriving DecidableEq, Repr

/-- Approval workflow state of a CH Item Offer. -/
inductive Approval
  | pending
  | approved
  | rejected
deriving DecidableEq, Repr

/-- The `value_type` select of a CH Item Offer. -/
inductive VType
  | percentage
  | amount
  | priceOverride
deriving DecidableEq, Repr

/-- Statuses the fetches and the sweep treat as live: `status IN ('Active', 'Scheduled')`. -/
def isLiveStatus : RecStatus → Bool
  | .active => true
  | .scheduled => true
  | _ => false

/-- A CH Item Offer row as fetched by the ready-reckoner queries. -/
structure OfferRec where
  item_code : String
  offer_type : String
  value_type : VType
  value : ℚ
  priority : Int
  stackable : Bool
  channel : String
  company : String
  status : RecStatus
  approval : Approval
  start_date : Int
  end_date : Int
deriving DecidableEq, Repr

/-- Sort key of `sorted(offers, key=lambda o: -(o.priority or 1))`: a zero
(or, in the database, NULL) priority is read as 1 by Python's `or`. -/
def priorityKey (o : OfferRec) : Int :=
  if o.priority = 0 then 1 else o.priority

/-- Descending-priority order used by `_compute_best_offer`: `a` may sit
before `b` when `b`'s key is at most `a`'s. -/
def priorityGE (a b : OfferRec) : Prop :=
  priorityKey b ≤ priorityKey a

instance : DecidableRel priorityGE := fun a b =>
  inferInstanceAs (Decidable (priorityKey b ≤ priorityKey a))

instance : IsTotal OfferRec priorityGE :=
  ⟨fun a b => (le_total (priorityKey b) (priorityKey a)).imp id id⟩

instance : IsTrans OfferRec priorityGE :=
  ⟨fun _ _ _ hab hbc => le_trans hbc hab⟩

/-- Stable descending sort by priority, the embedding of
`sorted(offers, key=lambda o: -(o.priority or 1))`. -/
def sortByPriorityDesc (l : List OfferRec) : List OfferRec :=
  List.insertionSort priorityGE l

/-- An offer the resolver treats as a price override:
`o.offer_type == "Price Override" or o.value_type == "Price Override"`. -/
def isOverrideOffer (o : OfferRec) : Bool :=
  decide (o.offer_type = "Price Override") || decide (o.value_type = VType.priceOverride)

/-- Result of `_compute_best_offer`. The Python function returns a dict;
`empty` marks the bare `{}` returned for an empty offer list. The label
string is rendered from the numeric components kept here: `labelOverride`
for the override branch, and the percent/amount running totals (each shown
in the label exactly when non-zero) for the stacking branch. -/
structure BestOffer where
  empty : Bool
  price : Option ℚ
  labelOverride : Option ℚ
  labelPct : ℚ
  labelAmt : ℚ
deriving DecidableEq, Repr

/-- The `{}` the resolver returns when given no offers. -/
def emptyBestOffer : BestOffer :=
  { empty := true, price := none, labelOverride := none, labelPct := 0, labelAmt := 0 }

/-- The stacking loop of `_compute_best_offer`: accumulate every stackable
offer into the percent or amount bucket, plus the first non-stackable
offer encountered (the list is already sorted by descending priority). -/
def stackLoop : List OfferRec → ℚ → ℚ → Bool → ℚ × ℚ
  | [], pct, amt, _ => (pct, amt)
  | o :: rest, pct, amt, seen =>
    if o.stackable then
      if o.value_type = VType.percentage then
        stackLoop rest (pct + o.value) amt seen
      else
        stackLoop rest pct (amt + o.value) seen
    else if seen then
      stackLoop rest pct amt seen
    else
      if o.value_type = VType.percentage then
        stackLoop rest (pct + o.value) amt true
      else
        stackLoop rest pct (amt + o.value) true

/-- Embedding of `_compute_best_offer` (`ready_reckoner_api.py`): sort by
priority descending; if any offer is classified as a price override the
first such offer in sorted order wins outright; otherwise run the
stacking loop over the sorted list. -/
def computeBestOffer (offers : List OfferRec) : BestOffer :=
  match offers with
  | [] => emptyBestOffer
  | _ :: _ =>
    let s := sortByPriorityDesc offers
    match s.find? isOverrideOffer with
    | some o =>
      { empty := false, price := some o.value, labelOverride := some o.value,
        labelPct := 0, labelAmt := 0 }
    | none =>
      let t := stackLoop s 0 0 false
      { empty := false, price := none, labelOverride := none,
        labelPct := t.1, labelAmt := t.2 }

/-- Sum of the values of all stackable percentage offers of a list. -/
def stackablePctSum (l : List OfferRec) : ℚ :=
  ((l.filter fun o => o.stackable && decide (o.value_type = VType.percentage)).map
    (fun o => o.value)).sum

/-- Sum of the values of all stackable offers that fall into the amount
bucket (every non-percentage value type). -/
def stackableAmtSum (l : List OfferRec) : ℚ :=
  ((l.filter fun o => o.stackable && decide (o.value_type ≠ VType.percentage)).map
    (fun o => o.value)).sum

/-- Percent-bucket contribution of the first non-stackable offer of a
list (in the list's own order). -/
def nsPctHead (l : List OfferRec) : ℚ :=
  match l.find? (fun o => !o.stackable) with
  | some o => if o.value_type = VType.percentage then o.value else 0
  | none => 0

/-- Amount-bucket contribution of the first non-stackable offer of a
list (in the list's own order). -/
def nsAmtHead (l : List OfferRec) : ℚ :=
  match l.find? (fun o => !o.stackable) with
  | some o => if o.value_type = VType.percentage then 0 else o.value
  | none => 0

/-- Percent-bucket contribution of the first non-stackable offer in
descending-priority order. -/
def nsPctOf (offers : List OfferRec) : ℚ :=
  nsPctHead (sortByPriorityDesc offers)

/-- Amount-bucket contribution of the first non-stackable offer in
descending-priority order. -/
def nsAmtOf (offers : List OfferRec) : ℚ :=
  nsAmtHead (sortByPriorityDesc offers)

/-! Price record validation (`doctype/ch_item_price/ch_item_price.py`). -/

/-- The three monetary fields of a CH Item Price as submitted for
validation; `none` is an unset field (Python `None`). -/
structure PriceInput where
  mrp : Option ℚ
  mop : Option ℚ
  selling_price : Option ℚ
deriving DecidableEq, Repr

/-- Python's `value or 0` over an optional monetary field. -/
def orZero : Option ℚ → ℚ
  | some v => v
  | none => 0

instance {ε α : Type} [DecidableEq ε] [DecidableEq α] : DecidableEq (Except ε α) := fun a b =>
  match a, b with
  | .error e1, .error e2 =>
    if h : e1 = e2 then .isTrue (by rw [h]) else .isFalse (by simp [h])
  | .error _, .ok _ => .isFalse (by simp)
  | .ok _, .error _ => .isFalse (by simp)
  | .ok a1, .ok a2 =>
    if h : a1 = a2 then .isTrue (by rw [h]) else .isFalse (by simp [h])

/-- Validation failures of the two price-value checks. -/
inductive PriceError
  | invalidPrice
  | invalidPriceHierarchy
deriving DecidableEq, Repr

/-- Embedding of `CHItemPrice._validate_positive_prices`: every field,
read through `or 0`, must be non-negative, and the selling price must be
strictly positive. -/
def validatePositivePrices (r : PriceInput) : Except PriceError Unit :=
  if orZero r.mrp < 0 then .error .invalidPrice
  else if orZero r.mop < 0 then .error .invalidPrice
  else if orZero r.selling_price < 0 then .error .invalidPrice
  else if orZero r.selling_price ≤ 0 then .error .invalidPrice
  else .ok ()

/-- Embedding of `CHItemPrice._validate_price_hierarchy`: each pairwise
comparison is enforced only when both operands are truthy (non-zero after
`or 0`), mirroring Python's `if mrp and mop and mrp < mop`. -/
def validatePriceHierarchy (r : PriceInput) : Except PriceError Unit :=
  if orZero r.mrp ≠ 0 ∧ orZero r.mop ≠ 0 ∧ orZero r.mrp < orZero r.mop then
    .error .invalidPriceHierarchy
  else if orZero r.mop ≠ 0 ∧ orZero r.selling_price ≠ 0 ∧ orZero r.mop < orZero r.selling_price then
    .error .invalidPriceHierarchy
  else if orZero r.mrp ≠ 0 ∧ orZero r.selling_price ≠ 0 ∧ orZero r.mrp < orZero r.selling_price then
    .error .invalidPriceHierarchy
  else .ok ()

/-- The price-value part of `CHItemPrice.validate`, in source order:
positivity first, then hierarchy (the date-range, channel and overlap
checks that follow in `validate` do not read the monetary fields). -/
def validatePrices (r : PriceInput) : Except PriceError Unit := do
  validatePositivePrices r
  validatePriceHierarchy r

/-! Overlap check (`CHItemPrice._check_overlapping_price`). -/

/-- A stored CH Item Price row, as seen by the overlap check and the
ready-reckoner queries. An unset `effective_to` (`none`) is open-ended;
an unset company is the empty string. -/
structure PriceRec where
  name : String
  item_code : String
  channel : String
  company : String
  mrp : ℚ
  mop : ℚ
  selling_price : ℚ
  effective_from : Int
  effective_to : Option Int
  status : RecStatus
deriving DecidableEq, Repr

/-- The database fetch of `_check_overlapping_price`: other rows of the
same (item, channel, company) key that are Active or Scheduled, start on
or before the new end date (when one is set), and either are open-ended
or end on or after the new start date `F`. -/
def overlapFetchFilter (item channel company self_name : String) (F : Int)
    (T : Option Int) (r : PriceRec) : Bool :=
  decide (r.item_code = item) && decide (r.channel = channel) &&
  decide (r.company = company) && decide (r.name ≠ self_name) &&
  isLiveStatus r.status &&
  (match T with
   | some t => decide (r.effective_from ≤ t)
   | none => true) &&
  (match r.effective_to with
   | some e => decide (F ≤ e)
   | none => true)

/-- The per-row test of `_check_overlapping_price`:
`no_overlap = (to_date and to_date < ex_from) or (ex_to and from_date > ex_to)`. -/
def noOverlapCheck (F : Int) (T : Option Int) (r : PriceRec) : Bool :=
  (match T with
   | some t => decide (t < r.effective_from)
   | none => false) ||
  (match r.effective_to with
   | some e => decide (e < F)
   | none => false)

/-- Embedding of `_check_overlapping_price`: the list of names of
conflicting records; validation raises `OverlappingPriceError` naming
them exactly when this list is non-empty. -/
def checkOverlappingPrice (recs : List PriceRec) (item channel company self_name : String)
    (F : Int) (T : Option Int) : List String :=
  (((recs.filter (overlapFetchFilter item channel company self_name F T)).filter
    (fun r => !noOverlapCheck F T r)).map (fun r => r.name))

/-- Specification-side reading of "T is a date and it lies strictly before
`s`" under the convention that an unset bound is plus infinity. -/
def endBeforeStart (T : Option Int) (s : Int) : Prop :=
  ∃ t, T = some t ∧ t < s

instance (T : Option Int) (s : Int) : Decidable (endBeforeStart T s) := by
  unfold endBeforeStart
  exact match T with
  | some t => decidable_of_iff (t < s) (by simp)
  | none => .isFalse (by simp)

/-- Specification-side interval intersection from the claim: the negation
of "new interval ends before the other starts, or the other ends before
the new one starts", open ends read as plus infinity. -/
def intervalsIntersect (F : Int) (T : Option Int) (F2 : Int) (T2 : Option Int) : Prop :=
  ¬ (endBeforeStart T F2 ∨ endBeforeStart T2 F)

instance (F : Int) (T : Option Int) (F2 : Int) (T2 : Option Int) :
    Decidable (intervalsIntersect F T F2 T2) := by
  unfold intervalsIntersect
  infer_instance

/-! Approval transition (`CHItemPrice.approve` / `CHItemPrice.on_update`). -/

/-- Date `e` (when set) lies strictly before `asOf`; the guard the source
repeats as `to_date and today > to_date` and when skipping price rows
whose `effective_to` has passed. -/
def pastEndDate (asOf : Int) : Option Int → Bool
  | some e => decide (e < asOf)
  | none => false

/-- Status computed by `CHItemPrice.approve` (and `_auto_set_status` for
non-Draft saves) from today's date and the record's effective interval. -/
def computeApprovedStatus (today from_date : Int) (to_date : Option Int) : RecStatus :=
  if pastEndDate today to_date then .expired
  else if today < from_date then .scheduled
  else .active

/-- Downstream side effect chosen by `CHItemPrice.on_update` from the
saved status: Active/Scheduled records sync to the ERPNext Item Price,
Expired records retract it, anything else (Draft) does nothing. -/
inductive SyncAction
  | syncToErp
  | expireErp
  | noSync
deriving DecidableEq, Repr

/-- Embedding of `CHItemPrice.on_update`. -/
def onUpdateAction : RecStatus → SyncAction
  | .active => .syncToErp
  | .scheduled => .syncToErp
  | .expired => .expireErp
  | _ => .noSync

/-! Expiry sweep (`scheduled_tasks.auto_expire_records`). -/

/-- A CH Item Price row as the sweep sees it. `modified` is the day the
row was last written (the sweep's SQL sets `modified = NOW()` and later
filters on `modified >= today`); `erp_item_price` links the synced
ERPNext Item Price by id. -/
structure SwPrice where
  status : RecStatus
  effective_from : Int
  effective_to : Option Int
  modified : Int
  erp_item_price : Option Nat
deriving DecidableEq, Repr

/-- A CH Item Offer row as the sweep sees it. The offer UPDATE statements
compare `start_date`/`end_date` against the current datetime; SQL NULL
comparisons are false, hence the option type. -/
structure SwOffer where
  status : RecStatus
  approval : Approval
  start_date : Option Int
  end_date : Option Int
  modified : Int
  erp_pricing_rule : Option Nat
deriving DecidableEq, Repr

/-- A CH Item Commercial Tag row as the sweep sees it. -/
structure SwTag where
  status : RecStatus
  effective_to : Option Int
  modified : Int
deriving DecidableEq, Repr

/-- The state the sweep reads and writes: the three CH record stores plus
the downstream sink artifacts — ERPNext Item Prices (id, `valid_upto`)
and Pricing Rules (id, `disable` flag). -/
structure SweepState where
  prices : List SwPrice
  offers : List SwOffer
  tags : List SwTag
  erp_item_prices : List (Nat × Option Int)
  pricing_rules : List (Nat × Bool)
deriving DecidableEq, Repr

/-- First price UPDATE of the sweep: Active/Scheduled rows whose set
`effective_to` lies before today become Expired. -/
def sweepPriceExpire (today : Int) (p : SwPrice) : SwPrice :=
  if isLiveStatus p.status && pastEndDate today p.effective_to then
    { p with status := .expired, modified := today }
  else p

/-- Second price UPDATE of the sweep: Scheduled rows whose window covers
today (started, and not ended or open-ended) become Active. -/
def sweepPriceActivate (today : Int) (p : SwPrice) : SwPrice :=
  if decide (p.status = RecStatus.scheduled) && decide (p.effective_from ≤ today) &&
      !pastEndDate today p.effective_to then
    { p with status := .active, modified := today }
  else p

/-- Per-row effect of the two sequential price UPDATE statements. -/
def sweepPrice (today : Int) (p : SwPrice) : SwPrice :=
  sweepPriceActivate today (sweepPriceExpire today p)

/-- First offer UPDATE of the sweep: Active/Scheduled approved offers
whose set `end_date` lies before now become Expired. -/
def sweepOfferExpire (now : Int) (o : SwOffer) : SwOffer :=
  if isLiveStatus o.status && decide (o.approval = Approval.approved) &&
      pastEndDate now o.end_date then
    { o with status := .expired, modified := now }
  else o

/-- Second offer UPDATE of the sweep: Scheduled approved offers whose
window covers now become Active (a NULL `start_date` never compares). -/
def sweepOfferActivate (now : Int) (o : SwOffer) : SwOffer :=
  if decide (o.status = RecStatus.scheduled) && decide (o.approval = Approval.approved) &&
      (match o.start_date with
       | some s => decide (s ≤ now)
       | none => false) &&
      !pastEndDate now o.end_date then
    { o with status := .active, modified := now }
  else o

/-- Per-row effect of the two sequential offer UPDATE statements. -/
def sweepOffer (now : Int) (o : SwOffer) : SwOffer :=
  sweepOfferActivate now (sweepOfferExpire now o)

/-- Tag UPDATE of the sweep: Active tags whose set `effective_to` lies
before today become Expired. -/
def sweepTag (today : Int) (t : SwTag) : SwTag :=
  if decide (t.status = RecStatus.active) && pastEndDate today t.effective_to then
    { t with status := .expired, modified := today }
  else t

/-- Ids of ERPNext Item Prices linked from Expired price rows modified
today or later — the `newly_expired` fetch of the sweep. -/
def newlyExpiredErpIds (today : Int) (ps : List SwPrice) : List Nat :=
  (ps.filter fun p =>
    decide (p.status = RecStatus.expired) && p.erp_item_price.isSome &&
    decide (today ≤ p.modified)).filterMap (fun p => p.erp_item_price)

/-- Retraction of one ERPNext Item Price: if it is linked from a newly
expired price row and its `valid_upto` is unset or still current, cap it
at today. -/
def retractErpPrice (today : Int) (ids : List Nat) (e : Nat × Option Int) : Nat × Option Int :=
  if decide (e.1 ∈ ids) &&
      (match e.2 with
       | some u => decide (today ≤ u)
       | none => true) then
    (e.1, some today)
  else e

/-- Ids of ERPNext Pricing Rules linked from Expired offers modified
today or later — the `newly_expired_offers` fetch of the sweep. -/
def expiredRuleIds (today : Int) (os : List SwOffer) : List Nat :=
  (os.filter fun o =>
    decide (o.status = RecStatus.expired) && o.erp_pricing_rule.isSome &&
    decide (today ≤ o.modified)).filterMap (fun o => o.erp_pricing_rule)

/-- Disabling of one Pricing Rule linked from a newly expired offer. -/
def disableRule (ids : List Nat) (r : Nat × Bool) : Nat × Bool :=
  if r.1 ∈ ids then (r.1, true) else r

/-- One pass of `auto_expire_records` at a fixed date `today` and
datetime `now`: the price, offer and tag UPDATE statements, then the
best-effort retraction of the downstream sink artifacts of the rows now
Expired. (The trailing sold-plan expiry concerns the warranty subsystem
and touches none of this state.) -/
def sweepOnce (today now : Int) (s : SweepState) : SweepState :=
  { prices := s.prices.map (sweepPrice today)
    offers := s.offers.map (sweepOffer now)
    tags := s.tags.map (sweepTag today)
    erp_item_prices := s.erp_item_prices.map
      (retractErpPrice today (newlyExpiredErpIds today (s.prices.map (sweepPrice today))))
    pricing_rules := s.pricing_rules.map
      (disableRule (expiredRuleIds today (s.offers.map (sweepOffer now)))) }

/-! Ready Reckoner grid and single-item rule engine (`ready_reckoner_api.py`). -/

/-- Company scoping of the grid fetches (line 102 of
`ready_reckoner_api.py`): with a company filter, a row is kept when its
company matches or is blank; with no filter every row is kept. -/
def companyScope (companyF : Option String) (c : String) : Bool :=
  match companyF with
  | none => true
  | some f => decide (c = f) || decide (c = "")

/-- Descending order on `effective_from` used by the price fetches
(`order_by="... effective_from desc"`). -/
def fromDescGE (a b : PriceRec) : Prop :=
  b.effective_from ≤ a.effective_from

instance : DecidableRel fromDescGE := fun a b =>
  inferInstanceAs (Decidable (b.effective_from ≤ a.effective_from))

instance : IsTotal PriceRec fromDescGE :=
  ⟨fun a b => (le_total b.effective_from a.effective_from).imp id id⟩

instance : IsTrans PriceRec fromDescGE :=
  ⟨fun _ _ _ hab hbc => le_trans hbc hab⟩

/-- Stable sort of price rows by descending `effective_from`. -/
def sortByFromDesc (l : List PriceRec) : List PriceRec :=
  List.insertionSort fromDescGE l

/-- The grid's price fetch (`_price_filters`): rows of the page's items
that are Active/Scheduled, started on or before `as_of`, within the
company scope. -/
def gridPriceFilter (codes : List String) (companyF : Option String) (asOf : Int)
    (r : PriceRec) : Bool :=
  decide (r.item_code ∈ codes) && isLiveStatus r.status &&
  decide (r.effective_from ≤ asOf) && companyScope companyF r.company

/-- Optional `price_status` filter of the grid's indexing loop. -/
def statusMatchFilter (priceStatus : Option RecStatus) (r : PriceRec) : Bool :=
  match priceStatus with
  | none => true
  | some st => decide (r.status = st)

/-- The grid's winning price for one (item, channel) cell: the fetched
rows of that key, ordered by `effective_from` descending, and the first
row not skipped by the indexing loop (skip when `effective_to` has
passed, or the `price_status` filter mismatches) wins. This is the
per-key view of the `price_index` built from the single ordered fetch. -/
def pickGridPrice (prices : List PriceRec) (codes : List String) (companyF : Option String)
    (asOf : Int) (priceStatus : Option RecStatus) (item ch : String) : Option PriceRec :=
  (sortByFromDesc ((prices.filter (gridPriceFilter codes companyF asOf)).filter
      (fun r => decide (r.item_code = item) && decide (r.channel = ch)))).find?
    (fun r => !pastEndDate asOf r.effective_to && statusMatchFilter priceStatus r)

/-- The grid's offer fetch (`_offer_filters`): Active/Scheduled approved
offers of the page's items whose date window covers `as_of`, within the
company scope. Note: no channel condition appears here. -/
def gridOfferFilter (codes : List String) (companyF : Option String) (asOf : Int)
    (o : OfferRec) : Bool :=
  decide (o.item_code ∈ codes) && isLiveStatus o.status &&
  decide (o.approval = Approval.approved) &&
  decide (o.start_date ≤ asOf) && decide (asOf ≤ o.end_date) &&
  companyScope companyF o.company

/-- The grid's per-item offer list (`offer_index[item]`). -/
def rowOffersFor (offers : List OfferRec) (codes : List String) (companyF : Option String)
    (asOf : Int) (item : String) : List OfferRec :=
  (offers.filter (gridOfferFilter codes companyF asOf)).filter
    (fun o => decide (o.item_code = item))

/-- A CH Item Commercial Tag row as the grid fetches it. -/
structure TagRec where
  item_code : String
  tag : String
  status : RecStatus
  company : String
deriving DecidableEq, Repr

/-- The grid's tag fetch: Active tags of the page's items, within the
company scope, optionally restricted to one tag name. -/
def gridTagFilter (codes : List String) (companyF : Option String) (tagF : Option String)
    (t : TagRec) : Bool :=
  decide (t.item_code ∈ codes) && decide (t.status = RecStatus.active) &&
  companyScope companyF t.company &&
  (match tagF with
   | none => true
   | some tg => decide (t.tag = tg))

/-- One assembled grid row (ungrouped mode, `group_by_price_specs=0`):
per-channel winning price plus the offer and tag summary fields. -/
structure GridRow where
  item_code : String
  channel_prices : List (String × Option PriceRec)
  offer_count : Nat
  active_offer : BestOffer
  has_bank_offer : Bool
  has_brand_offer : Bool
  tags : List String
deriving DecidableEq, Repr

/-- Row assembly of `get_ready_reckoner_data` for one item. -/
def buildGridRow (prices : List PriceRec) (offers : List OfferRec) (tagRecs : List TagRec)
    (channels : List String) (codes : List String) (companyF : Option String) (asOf : Int)
    (priceStatus : Option RecStatus) (tagF : Option String) (item : String) : GridRow :=
  let offs := rowOffersFor offers codes companyF asOf item
  { item_code := item
    channel_prices :=
      channels.map fun ch => (ch, pickGridPrice prices codes companyF asOf priceStatus item ch)
    offer_count := offs.length
    active_offer := computeBestOffer offs
    has_bank_offer := offs.any fun o => decide (o.offer_type = "Bank Offer")
    has_brand_offer := offs.any fun o => decide (o.offer_type = "Brand Offer")
    tags := ((tagRecs.filter (gridTagFilter codes companyF tagF)).filter
      (fun t => decide (t.item_code = item))).map (fun t => t.tag) }

/-- Embedding of `get_ready_reckoner_data` in ungrouped mode
(`group_by_price_specs=0`), for an already fetched item page `items` and
channel registry `registry`: the requested channel narrows only the
channel list, never the offer or tag fetches. -/
def getReadyReckonerRows (items registry : List String) (prices : List PriceRec)
    (offers : List OfferRec) (tagRecs : List TagRec) (channelQ companyF : Option String)
    (asOf : Int) (priceStatus : Option RecStatus) (tagF : Option String) : List GridRow :=
  let channels :=
    match channelQ with
    | none => registry
    | some c => registry.filter fun n => decide (n = c)
  items.map (buildGridRow prices offers tagRecs channels items companyF asOf priceStatus tagF)

/-- Result of `get_active_price`. `best` keeps the resolver output whose
label the endpoint returns; `final_price` is `none` exactly in the
not-found branches. -/
structure ActivePriceResult where
  found : Bool
  base_price : Option PriceRec
  final_price : Option ℚ
  best : BestOffer
  has_bank_offer : Bool
  has_brand_offer : Bool
deriving DecidableEq, Repr

/-- The two `{"found": False}` returns of `get_active_price`. -/
def notFoundResult : ActivePriceResult :=
  { found := false, base_price := none, final_price := none,
    best := emptyBestOffer, has_bank_offer := false, has_brand_offer := false }

/-- The offer fetch of `get_active_price`: the item's Active/Scheduled
approved offers covering `as_of` whose channel is the requested one or
blank. -/
def activeOffersFor (offers : List OfferRec) (item ch : String) (asOf : Int) : List OfferRec :=
  offers.filter fun o =>
    decide (o.item_code = item) && isLiveStatus o.status &&
    decide (o.approval = Approval.approved) &&
    decide (o.start_date ≤ asOf) && decide (asOf ≤ o.end_date) &&
    (decide (o.channel = ch) || decide (o.channel = ""))

/-- Found branch of `get_active_price`: resolve the best offer and report
it next to the base price. `final_price` follows the Python truthiness of
`best.get("price")`: a zero override falls back to the base selling
price. -/
def activePriceFound (offers : List OfferRec) (item ch : String) (asOf : Int)
    (bp : PriceRec) : ActivePriceResult :=
  let offs := activeOffersFor offers item ch asOf
  let best := computeBestOffer offs
  { found := true
    base_price := some bp
    final_price := some
      (match best.price with
       | some v => if v ≠ 0 then v else bp.selling_price
       | none => bp.selling_price)
    best := best
    has_bank_offer := offs.any fun o => decide (o.offer_type = "Bank Offer")
    has_brand_offer := offs.any fun o => decide (o.offer_type = "Brand Offer") }

/-- Embedding of `get_active_price`: fetch the item+channel rows that are
Active/Scheduled and started on or before `as_of`, ordered by
`effective_from` descending with `limit=1` (the head of the sorted
list); return not-found when nothing matches, or when that single row's
`effective_to` has already passed. -/
def getActivePrice (prices : List PriceRec) (offers : List OfferRec) (item ch : String)
    (asOf : Int) : ActivePriceResult :=
  match (sortByFromDesc (prices.filter fun r =>
      decide (r.item_code = item) && decide (r.channel = ch) &&
      isLiveStatus r.status && decide (r.effective_from ≤ asOf))).head? with
  | none => notFoundResult
  | some bp =>
    if pastEndDate asOf bp.effective_to then notFoundResult
    else activePriceFound offers item ch asOf bp

/-- Specification-side covering predicate of claim C4: the record's
interval covers `as_of` (started, and open-ended or not yet ended). -/
def coversAsOf (asOf : Int) (r : PriceRec) : Bool :=
  decide (r.effective_from ≤ asOf) && !pastEndDate asOf r.effective_to

/-! Concrete records used by witnesses and counterexamples. -/

/-- A plain Amount offer, value 100, priority 1. -/
def oAmount100 : OfferRec :=
  { item_code := "A", offer_type := "Generic", value_type := .amount, value := 100,
    priority := 1, stackable := false, channel := "", company := "",
    status := .active, approval := .approved, start_date := 0, end_date := 100 }

/-- A `value_type = Price Override` offer, value 999, priority 5. -/
def oOverride999 : OfferRec :=
  { item_code := "A", offer_type := "Generic", value_type := .priceOverride, value := 999,
    priority := 5, stackable := false, channel := "", company := "",
    status := .active, approval := .approved, start_date := 0, end_date := 100 }

/-- A Percentage offer whose free-form `offer_type` is "Price Override",
value 50, priority 10. -/
def oTypeOverride50 : OfferRec :=
  { item_code := "A", offer_type := "Price Override", value_type := .percentage, value := 50,
    priority := 10, stackable := false, channel := "", company := "",
    status := .active, approval := .approved, start_date := 0, end_date := 100 }

/-- A stackable Percentage offer whose free-form `offer_type` is
"Price Override", value 10, priority 1. -/
def oPctOvr10 : OfferRec :=
  { item_code := "A", offer_type := "Price Override", value_type := .percentage, value := 10,
    priority := 1, stackable := true, channel := "", company := "",
    status := .active, approval := .approved, start_date := 0, end_date := 100 }

/-- Stackable 10 percent offer, priority 1. -/
def oPct10Stk : OfferRec :=
  { item_code := "A", offer_type := "Generic", value_type := .percentage, value := 10,
    priority := 1, stackable := true, channel := "", company := "",
    status := .active, approval := .approved, start_date := 0, end_date := 100 }

/-- Stackable 5 percent offer, priority 2. -/
def oPct5Stk : OfferRec :=
  { item_code := "A", offer_type := "Generic", value_type := .percentage, value := 5,
    priority := 2, stackable := true, channel := "", company := "",
    status := .active, approval := .approved, start_date := 0, end_date := 100 }

/-- Non-stackable 10 percent offer, priority 2. -/
def oPct10NS : OfferRec :=
  { item_code := "A", offer_type := "Generic", value_type := .percentage, value := 10,
    priority := 2, stackable := false, channel := "", company := "",
    status := .active, approval := .approved, start_date := 0, end_date := 100 }

/-- Non-stackable 5 percent offer, priority 1. -/
def oPct5NS : OfferRec :=
  { item_code := "A", offer_type := "Generic", value_type := .percentage, value := 5,
    priority := 1, stackable := false, channel := "", company := "",
    status := .active, approval := .approved, start_date := 0, end_date := 100 }

/-- An approved active offer for item "A" scoped to channel "Web". -/
def oWebOffer : OfferRec :=
  { item_code := "A", offer_type := "Bank Offer", value_type := .percentage, value := 10,
    priority := 1, stackable := true, channel := "Web", company := "",
    status := .active, approval := .approved, start_date := 0, end_date := 100 }

/-- Open-ended active price for item "A" on channel "POS" from day 0. -/
def pOpenEnded : PriceRec :=
  { name := "P1", item_code := "A", channel := "POS", company := "",
    mrp := 100, mop := 90, selling_price := 80,
    effective_from := 0, effective_to := none, status := .active }

/-- Later-starting price for the same key, days 30 to 40, still Active. -/
def pLaterExpired : PriceRec :=
  { name := "P2", item_code := "A", channel := "POS", company := "",
    mrp := 100, mop := 90, selling_price := 85,
    effective_from := 30, effective_to := some 40, status := .active }

/-- An Active price record for item "A" on channel "POS", days 0 to 30. -/
def pJan : PriceRec :=
  { name := "PRICE-1", item_code := "A", channel := "POS", company := "",
    mrp := 100, mop := 90, selling_price := 80,
    effective_from := 0, effective_to := some 30, status := .active }

/-- Price input with a negative MRP and inverted MOP/selling price. -/
def pNegMrp : PriceInput :=
  { mrp := some (-5), mop := some 10, selling_price := some 20 }

/-- An Active tag for item "A" scoped to company "Y". -/
def tNewTag : TagRec :=
  { item_code := "A", tag := "NEW", status := .active, company := "Y" }

/-- An Active but never-approved offer whose end date has passed. -/
def oStalePending : SwOffer :=
  { status := .active, approval := .pending, start_date := some 0, end_date := some 5,
    modified := 0, erp_pricing_rule := none }

/-- A sweep state with one expirable synced price and its sink artifact. -/
def stSweep : SweepState :=
  { prices := [{ status := .active, effective_from := 0, effective_to := some 5,
                 modified := 0, erp_item_price := some 7 }],
    offers := [], tags := [],
    erp_item_prices := [(7, none)], pricing_rules := [] }

/-- A Draft price row with a long-past end date. -/
def pDraftStale : SwPrice :=
  { status := .draft, effective_from := 0, effective_to := some 5,
    modified := 0, erp_item_price := none }

/-- A sweep state holding only the stale pending offer. -/
def stPendingOnly : SweepState :=
  { prices := [], offers := [oStalePending], tags := [],
    erp_item_prices := [], pricing_rules := [] }

/-! Helper lemmas. -/

theorem map_idem_of_idem {α : Type} (f : α → α) (h : ∀ x, f (f x) = f x) :
    ∀ l : List α, (l.map f).map f = l.map f := by
  intro l
  induction l with
  | nil => rfl
  | cons a t ih => simp only [List.map_cons, h a, ih]

theorem validatePrices_def (r : PriceInput) :
    validatePrices r =
      match validatePositivePrices r with
      | .error e => .error e
      | .ok _ => validatePriceHierarchy r := by
  unfold validatePrices
  cases h : validatePositivePrices r <;> simp [Bind.bind, Except.bind, h]

/-! Claim C7. -/

/-- Counterexample to claim C7 as stated: a record with a negative MRP
whose MOP/selling-price pair also violates the hierarchy is rejected, but
with InvalidPriceError (positivity runs first), not with
InvalidPriceHierarchyError as the claim requires for every
hierarchy-violating record. -/
theorem price_validation_invariant_cex :
    (orZero pNegMrp.mop ≠ 0 ∧ orZero pNegMrp.selling_price ≠ 0 ∧
      orZero pNegMrp.mop < orZero pNegMrp.selling_price) ∧
    validatePrices pNegMrp = .error .invalidPrice ∧
    PriceError.invalidPrice ≠ PriceError.invalidPriceHierarchy := by
  decide

/-- Claim C7 (amended): a record passing validation has a positive
selling price, no negative field, and satisfies every pairwise hierarchy
comparison among its truthy fields; a record with non-negative fields and
positive selling price that violates a pairwise hierarchy comparison is
rejected with InvalidPriceHierarchyError; a record with a negative field
or a non-positive selling price is rejected with InvalidPriceError (the
positivity check runs first, so it wins when both checks fail). -/
theorem price_validation_invariant (r : PriceInput) :
    (validatePrices r = .ok () →
      0 < orZero r.selling_price ∧ 0 ≤ orZero r.mrp ∧ 0 ≤ orZero r.mop ∧
      (orZero r.mrp ≠ 0 → orZero r.mop ≠ 0 → orZero r.mop ≤ orZero r.mrp) ∧
      (orZero r.mop ≠ 0 → orZero r.selling_price ≤ orZero r.mop) ∧
      (orZero r.mrp ≠ 0 → orZero r.selling_price ≤ orZero r.mrp)) ∧
    (0 ≤ orZero r.mrp → 0 ≤ orZero r.mop → 0 < orZero r.selling_price →
      ((orZero r.mrp ≠ 0 ∧ orZero r.mop ≠ 0 ∧ orZero r.mrp < orZero r.mop) ∨
        (orZero r.mop ≠ 0 ∧ orZero r.mop < orZero r.selling_price) ∨
        (orZero r.mrp ≠ 0 ∧ orZero r.mrp < orZero r.selling_price)) →
      validatePrices r = .error .invalidPriceHierarchy) ∧
    ((orZero r.mrp < 0 ∨ orZero r.mop < 0 ∨ orZero r.selling_price ≤ 0) →
      validatePrices r = .error .invalidPrice) := by
  refine ⟨?_, ?_, ?_⟩
  · intro hok
    rw [validatePrices_def] at hok
    have hpos : validatePositivePrices r = .ok () := by
      cases h : validatePositivePrices r with
      | error e => rw [h] at hok; exact absurd hok (by simp)
      | ok u => cases u; rfl
    rw [hpos] at hok
    unfold validatePositivePrices at hpos
    split_ifs at hpos with h1 h2 h3 h4
    unfold validatePriceHierarchy at hok
    split_ifs at hok with h5 h6 h7
    push_neg at h5 h6 h7
    refine ⟨lt_of_not_le h4, le_of_not_lt h1, le_of_not_lt h2, ?_, ?_, ?_⟩
    · intro hm ho
      exact h5 hm ho
    · intro ho
      exact h6 ho (by intro h0; rw [h0] at h4; exact h4 le_rfl)
    · intro hm
      exact h7 hm (by intro h0; rw [h0] at h4; exact h4 le_rfl)
  · intro hm ho hs hviol
    have hpos : validatePositivePrices r = .ok () := by
      unfold validatePositivePrices
      split_ifs with h1 h2 h3 h4
      · exact absurd hm (not_le.mpr h1)
      · exact absurd ho (not_le.mpr h2)
      · exact absurd (le_of_lt hs) (not_le.mpr h3)
      · exact absurd hs (not_lt.mpr h4)
      · rfl
    rw [validatePrices_def, hpos]
    unfold validatePriceHierarchy
    split_ifs with h5 h6 h7
    · rfl
    · rfl
    · rfl
    · exfalso
      have hsne : orZero r.selling_price ≠ 0 := ne_of_gt hs
      rcases hviol with ⟨a, b, c⟩ | ⟨a, b⟩ | ⟨a, b⟩
      · exact h5 ⟨a, b, c⟩
      · exact h6 ⟨a, hsne, b⟩
      · exact h7 ⟨a, hsne, b⟩
  · intro h
    rw [validatePrices_def]
    unfold validatePositivePrices
    split_ifs with h1 h2 h3 h4
    · rfl
    · rfl
    · rfl
    · rfl
    · exfalso
      rcases h with h | h | h
      · exact h1 h
      · exact h2 h
      · exact h4 h

/-- Witness for C7 at a concrete record: 100 / 90 / 80 passes and the
hierarchy facts follow; a zero selling price is an InvalidPriceError. -/
theorem price_validation_invariant_witness :
    (0:ℚ) ≤ orZero (some 100) ∧
    validatePrices { mrp := some 0, mop := some 0, selling_price := some 0 } =
      .error .invalidPrice ∧
    (0:ℚ) < orZero ({ mrp := some 100, mop := some 90, selling_price := some 80 :
      PriceInput }).selling_price :=
  ⟨by decide,
    (price_validation_invariant
      { mrp := some 0, mop := some 0, selling_price := some 0 }).2.2
      (Or.inr (Or.inr (by decide))),
    ((price_validation_invariant
      { mrp := some 100, mop := some 90, selling_price := some 80 }).1
      (by decide)).1⟩

/-! Claim C9. -/

/-- Counterexample to claim C9 as stated: approving a Draft record whose
whole interval already lies in the past lands in Expired, not in
{Scheduled, Active}. -/
theorem approve_status_cex :
    computeApprovedStatus 100 0 (some 50) = .expired ∧
    RecStatus.expired ≠ RecStatus.scheduled ∧
    RecStatus.expired ≠ RecStatus.active := by
  decide

/-- Claim C9 (amended): approve computes the new status purely from the
record's dates — Expired when the end date has passed, Scheduled when
today is before the start, Active otherwise — so a transition out of
Draft lands in {Scheduled, Active, Expired}; on_update then syncs the
record downstream for Active/Scheduled and retracts it for Expired. -/
theorem approve_status_characterization (today from_date : Int) (to_date : Option Int) :
    (computeApprovedStatus today from_date to_date = .expired ↔
      pastEndDate today to_date = true) ∧
    (computeApprovedStatus today from_date to_date = .scheduled ↔
      pastEndDate today to_date = false ∧ today < from_date) ∧
    (computeApprovedStatus today from_date to_date = .active ↔
      pastEndDate today to_date = false ∧ from_date ≤ today) ∧
    (computeApprovedStatus today from_date to_date = .scheduled ∨
      computeApprovedStatus today from_date to_date = .active ∨
      computeApprovedStatus today from_date to_date = .expired) ∧
    (onUpdateAction (computeApprovedStatus today from_date to_date) =
      if pastEndDate today to_date then SyncAction.expireErp else SyncAction.syncToErp) := by
  unfold computeApprovedStatus
  split_ifs with h1 h2 <;>
    simp_all [onUpdateAction, not_lt, le_of_lt]

/-- Witness for C9 at concrete dates: approving on day 5 a record
starting day 8 (open-ended) schedules it. -/
theorem approve_status_characterization_witness :
    (computeApprovedStatus 5 8 none = .scheduled ↔
      pastEndDate 5 none = false ∧ (5:Int) < 8) :=
  (approve_status_characterization 5 8 none).2.1

/-! Claim C10. -/

/-- Claim C10 (confirmed): when the highest-priority offer (the head of
the stable descending-priority order) carries the free-form
classification "Price Override" while its value_type is Percentage, the
resolver returns its raw value as the absolute result price, with no
percentage total. -/
theorem offer_type_marks_override (offers : List OfferRec) (o : OfferRec)
    (rest : List OfferRec) (hs : sortByPriorityDesc offers = o :: rest)
    (ht : o.offer_type = "Price Override") (_hv : o.value_type = VType.percentage) :
    (computeBestOffer offers).price = some o.value ∧
    (computeBestOffer offers).labelOverride = some o.value ∧
    (computeBestOffer offers).labelPct = 0 := by
  have hne : offers ≠ [] := by
    intro h
    rw [h] at hs
    exact absurd hs (by simp [sortByPriorityDesc, List.insertionSort])
  obtain ⟨a, t, rfl⟩ := List.exists_cons_of_ne_nil hne
  have hov : isOverrideOffer o = true := by
    simp [isOverrideOffer, ht]
  have hfind : (sortByPriorityDesc (a :: t)).find? isOverrideOffer = some o := by
    rw [hs]
    exact List.find?_cons_of_pos rest hov
  simp [computeBestOffer, hfind]

/-- Witness for C10 at a concrete offer list: the 10-percent offer
classified "Price Override" comes back as an absolute price of 10. -/
theorem offer_type_marks_override_witness :
    sortByPriorityDesc [oPctOvr10] = [oPctOvr10] ∧
    (computeBestOffer [oPctOvr10]).price = some 10 :=
  ⟨by decide,
    ((offer_type_marks_override [oPctOvr10] oPctOvr10 [] (by decide) (by decide)
      (by decide)).1).trans (by decide)⟩

/-! Sorting helpers for the resolver proofs. -/

theorem sortByPriorityDesc_perm (l : List OfferRec) : List.Perm (sortByPriorityDesc l) l :=
  List.perm_insertionSort priorityGE l

theorem sortByPriorityDesc_sorted (l : List OfferRec) :
    List.Sorted priorityGE (sortByPriorityDesc l) :=
  List.sorted_insertionSort priorityGE l

theorem find?_priority_max {p : OfferRec → Bool} :
    ∀ {l : List OfferRec}, List.Sorted priorityGE l → ∀ {o : OfferRec},
      l.find? p = some o → ∀ y ∈ l, p y = true → priorityKey y ≤ priorityKey o := by
  intro l
  induction l with
  | nil =>
    intro _ o hf
    simp at hf
  | cons a t ih =>
    intro hs o hf y hy hpy
    obtain ⟨ha, ht⟩ := List.sorted_cons.mp hs
    by_cases hpa : p a = true
    · rw [List.find?_cons_of_pos t hpa] at hf
      cases hf
      rcases List.mem_cons.mp hy with rfl | hyt
      · exact le_refl _
      · exact ha y hyt
    · rw [List.find?_cons_of_neg t (by simpa using hpa)] at hf
      rcases List.mem_cons.mp hy with rfl | hyt
      · exact absurd hpy hpa
      · exact ih ht hf y hyt hpy

theorem stackablePctSum_perm {l1 l2 : List OfferRec} (h : List.Perm l1 l2) :
    stackablePctSum l1 = stackablePctSum l2 :=
  List.Perm.sum_eq (List.Perm.map _ (List.Perm.filter _ h))

theorem stackableAmtSum_perm {l1 l2 : List OfferRec} (h : List.Perm l1 l2) :
    stackableAmtSum l1 = stackableAmtSum l2 :=
  List.Perm.sum_eq (List.Perm.map _ (List.Perm.filter _ h))

theorem stackLoop_seen (l : List OfferRec) : ∀ pct amt : ℚ,
    stackLoop l pct amt true = (pct + stackablePctSum l, amt + stackableAmtSum l) := by
  induction l with
  | nil =>
    intro pct amt
    simp [stackLoop, stackablePctSum, stackableAmtSum]
  | cons o rest ih =>
    intro pct amt
    by_cases hs : o.stackable
    · by_cases hv : o.value_type = VType.percentage
      · simp only [stackLoop, hs, hv, if_true, ih]
        simp [stackablePctSum, stackableAmtSum, List.filter_cons, hs, hv]
        ring
      · simp only [stackLoop, hs, if_true, if_neg hv, ih]
        simp [stackablePctSum, stackableAmtSum, List.filter_cons, hs, hv]
        ring
    · simp only [stackLoop, hs, if_false, if_true, ih]
      simp [stackablePctSum, stackableAmtSum, List.filter_cons, hs]

theorem stackLoop_unseen (l : List OfferRec) : ∀ pct amt : ℚ,
    stackLoop l pct amt false =
      (pct + stackablePctSum l + nsPctHead l, amt + stackableAmtSum l + nsAmtHead l) := by
  induction l with
  | nil =>
    intro pct amt
    simp [stackLoop, stackablePctSum, stackableAmtSum, nsPctHead, nsAmtHead]
  | cons o rest ih =>
    intro pct amt
    by_cases hs : o.stackable
    · have hfind : (o :: rest).find? (fun x => !x.stackable) = rest.find? (fun x => !x.stackable) :=
        List.find?_cons_of_neg rest (by simp [hs])
      by_cases hv : o.value_type = VType.percentage
      · simp only [stackLoop, hs, hv, if_true, ih]
        simp [stackablePctSum, stackableAmtSum, nsPctHead, nsAmtHead, List.filter_cons,
          hs, hv, hfind]
        ring
      · simp only [stackLoop, hs, if_true, if_neg hv, ih]
        simp [stackablePctSum, stackableAmtSum, nsPctHead, nsAmtHead, List.filter_cons,
          hs, hv, hfind]
        ring
    · have hfind : (o :: rest).find? (fun x => !x.stackable) = some o :=
        List.find?_cons_of_pos rest (by simp [hs])
      by_cases hv : o.value_type = VType.percentage
      · simp only [stackLoop, hs, hv, if_false, if_true, stackLoop_seen]
        simp [stackablePctSum, stackableAmtSum, nsPctHead, nsAmtHead, List.filter_cons,
          hs, hv, hfind]
        ring
      · simp only [stackLoop, hs, if_false, if_neg hv, stackLoop_seen]
        simp [stackablePctSum, stackableAmtSum, nsPctHead, nsAmtHead, List.filter_cons,
          hs, hv, hfind]
        ring

/-! Claim C2. -/

/-- Counterexample to claim C2 as stated: in a list whose only
`value_type = Price Override` offer has value 999 (and the top priority
among such offers), the resolver returns 50 — the value of a
higher-priority Percentage offer whose free-form `offer_type` is
"Price Override" — not 999. -/
theorem offer_override_precedence_cex :
    (computeBestOffer [oTypeOverride50, oOverride999]).price = some 50 ∧
    oOverride999 ∈ [oTypeOverride50, oOverride999] ∧
    oOverride999.value_type = VType.priceOverride ∧
    (∀ o ∈ [oTypeOverride50, oOverride999], o.value_type = VType.priceOverride →
      o.value = 999 ∧ priorityKey o ≤ priorityKey oOverride999) ∧
    some (50:ℚ) ≠ some (999:ℚ) := by
  decide

/-- Claim C2 (amended): for every offer list containing at least one
offer classified as a price override (free-form `offer_type` or
`value_type` equal to "Price Override"), the resolver returns the value
of a maximal-priority such offer as the absolute result price and
ignores every other offer; when the overrides are marked only by
`value_type` this is the highest-priority PriceOverride offer, and in
particular the claim's concrete example returns 999 in either order. -/
theorem offer_override_precedence :
    (∀ offers : List OfferRec, (∃ o ∈ offers, isOverrideOffer o = true) →
      ∃ o ∈ offers, isOverrideOffer o = true ∧
        (computeBestOffer offers).price = some o.value ∧
        (computeBestOffer offers).labelOverride = some o.value ∧
        ∀ y ∈ offers, isOverrideOffer y = true → priorityKey y ≤ priorityKey o) ∧
    (computeBestOffer [oAmount100, oOverride999]).price = some 999 ∧
    (computeBestOffer [oOverride999, oAmount100]).price = some 999 := by
  refine ⟨?_, by decide, by decide⟩
  intro offers hex
  obtain ⟨w, hw, hpw⟩ := hex
  have hne : offers ≠ [] := by
    rintro rfl
    exact absurd hw (List.not_mem_nil w)
  obtain ⟨a, t, rfl⟩ := List.exists_cons_of_ne_nil hne
  have hperm := sortByPriorityDesc_perm (a :: t)
  cases hfind : (sortByPriorityDesc (a :: t)).find? isOverrideOffer with
  | none =>
    exfalso
    have hall := List.find?_eq_none.mp hfind w (hperm.mem_iff.mpr hw)
    exact hall hpw
  | some o =>
    refine ⟨o, hperm.subset (List.mem_of_find?_eq_some hfind),
      List.find?_some hfind, ?_, ?_, ?_⟩
    · simp [computeBestOffer, hfind]
    · simp [computeBestOffer, hfind]
    · intro y hy hpy
      exact find?_priority_max (sortByPriorityDesc_sorted (a :: t)) hfind y
        (hperm.mem_iff.mpr hy) hpy

/-- Witness for C2: the claim's own example list contains a
PriceOverride offer, and the theorem applies to it. -/
theorem offer_override_precedence_witness :
    (∃ o ∈ [oAmount100, oOverride999], isOverrideOffer o = true) ∧
    (∃ o ∈ [oAmount100, oOverride999], isOverrideOffer o = true ∧
      (computeBestOffer [oAmount100, oOverride999]).price = some o.value ∧
      (computeBestOffer [oAmount100, oOverride999]).labelOverride = some o.value ∧
      ∀ y ∈ [oAmount100, oOverride999], isOverrideOffer y = true →
        priorityKey y ≤ priorityKey o) :=
  ⟨⟨oOverride999, by decide, by decide⟩,
    offer_override_precedence.1 [oAmount100, oOverride999]
      ⟨oOverride999, by decide, by decide⟩⟩

/-! Claim C3. -/

/-- Counterexample to claim C3 as stated: a singleton list with no
`value_type = Price Override` offer is still resolved through the
override branch — its free-form `offer_type` is "Price Override" — so
the result price is 10 rather than the None the stacking rule
prescribes. -/
theorem offer_stacking_cex :
    (∀ o ∈ [oPctOvr10], o.value_type ≠ VType.priceOverride) ∧
    (computeBestOffer [oPctOvr10]).price = some 10 ∧
    some (10:ℚ) ≠ (none : Option ℚ) := by
  decide

/-- Claim C3 (amended): for every non-empty offer list with no offer
classified as a price override (neither by `value_type` nor by the
free-form `offer_type`), the resolver returns no price; its label totals
are the sum of all stackable offers per bucket plus the contribution of
exactly the first non-stackable offer in descending-priority order. The
claim's concrete examples: two stackable 10 and 5 percent offers total
15 percent, two non-stackable 10 (priority 2) and 5 (priority 1)
percent offers total 10 percent only. -/
theorem offer_stacking :
    (∀ offers : List OfferRec, offers ≠ [] →
      (∀ o ∈ offers, isOverrideOffer o = false) →
      (computeBestOffer offers).price = none ∧
      (computeBestOffer offers).labelPct = stackablePctSum offers + nsPctOf offers ∧
      (computeBestOffer offers).labelAmt = stackableAmtSum offers + nsAmtOf offers) ∧
    (computeBestOffer [oPct10Stk, oPct5Stk]).labelPct = 15 ∧
    (computeBestOffer [oPct10Stk, oPct5Stk]).price = none ∧
    (computeBestOffer [oPct10NS, oPct5NS]).labelPct = 10 ∧
    (computeBestOffer [oPct10NS, oPct5NS]).price = none := by
  refine ⟨?_, ?_, ?_, ?_, ?_⟩
  · intro offers hne hno
    obtain ⟨a, t, rfl⟩ := List.exists_cons_of_ne_nil hne
    have hperm := sortByPriorityDesc_perm (a :: t)
    have hfind : (sortByPriorityDesc (a :: t)).find? isOverrideOffer = none :=
      List.find?_eq_none.mpr fun x hx => by
        simp [hno x (hperm.subset hx)]
    have hpct := stackablePctSum_perm hperm
    have hamt := stackableAmtSum_perm hperm
    refine ⟨?_, ?_, ?_⟩
    · simp [computeBestOffer, hfind]
    · simp [computeBestOffer, hfind, stackLoop_unseen, nsPctOf, hpct]
    · simp [computeBestOffer, hfind, stackLoop_unseen, nsAmtOf, hamt]
  · simp [computeBestOffer, sortByPriorityDesc, List.insertionSort, List.orderedInsert,
      priorityGE, priorityKey, isOverrideOffer, stackLoop, oPct10Stk, oPct5Stk]
    norm_num
  · simp [computeBestOffer, sortByPriorityDesc, List.insertionSort, List.orderedInsert,
      priorityGE, priorityKey, isOverrideOffer, stackLoop, oPct10Stk, oPct5Stk]
  · simp [computeBestOffer, sortByPriorityDesc, List.insertionSort, List.orderedInsert,
      priorityGE, priorityKey, isOverrideOffer, stackLoop, oPct10NS, oPct5NS]
  · simp [computeBestOffer, sortByPriorityDesc, List.insertionSort, List.orderedInsert,
      priorityGE, priorityKey, isOverrideOffer, stackLoop, oPct10NS, oPct5NS]

/-- Witness for C3: the amended statement applied to the claim's
stackable example. -/
theorem offer_stacking_witness :
    ([oPct10Stk, oPct5Stk] ≠ ([] : List OfferRec)) ∧
    (∀ o ∈ [oPct10Stk, oPct5Stk], isOverrideOffer o = false) ∧
    ((computeBestOffer [oPct10Stk, oPct5Stk]).price = none ∧
      (computeBestOffer [oPct10Stk, oPct5Stk]).labelPct =
        stackablePctSum [oPct10Stk, oPct5Stk] + nsPctOf [oPct10Stk, oPct5Stk] ∧
      (computeBestOffer [oPct10Stk, oPct5Stk]).labelAmt =
        stackableAmtSum [oPct10Stk, oPct5Stk] + nsAmtOf [oPct10Stk, oPct5Stk]) :=
  ⟨by decide, by decide,
    offer_stacking.1 [oPct10Stk, oPct5Stk] (by decide) (by decide)⟩

/-! Claim C1. -/

theorem overlap_record_iff (item channel company self_name : String) (F : Int)
    (T : Option Int) (r : PriceRec) :
    (overlapFetchFilter item channel company self_name F T r = true ∧
      noOverlapCheck F T r = false) ↔
    (r.item_code = item ∧ r.channel = channel ∧ r.company = company ∧
      r.name ≠ self_name ∧ isLiveStatus r.status = true ∧
      intervalsIntersect F T r.effective_from r.effective_to) := by
  unfold overlapFetchFilter noOverlapCheck intervalsIntersect endBeforeStart
  cases T with
  | none =>
    cases h : r.effective_to with
    | none => simp [h]; tauto
    | some e => simp [h, not_lt]; tauto
  | some t =>
    cases h : r.effective_to with
    | none => simp [h, not_lt]; tauto
    | some e => simp [h, not_lt]; tauto

/-- Claim C1 (confirmed): the overlap check raises OverlappingPriceError
naming the conflicting record names exactly when some other Active or
Scheduled record of the same (item, channel, company) key has an
interval intersecting the new `[F, T]` (open ends read as plus
infinity), where intersection is the negation of
`(T < other.from) or (other.to < F)`; with no such record the list of
conflicts is empty and validation passes. -/
theorem overlap_check_correct (recs : List PriceRec) (item channel company self_name : String)
    (F : Int) (T : Option Int) :
    (∀ n, n ∈ checkOverlappingPrice recs item channel company self_name F T ↔
      ∃ r ∈ recs, r.name = n ∧ r.item_code = item ∧ r.channel = channel ∧
        r.company = company ∧ r.name ≠ self_name ∧ isLiveStatus r.status = true ∧
        intervalsIntersect F T r.effective_from r.effective_to) ∧
    (checkOverlappingPrice recs item channel company self_name F T = [] ↔
      ∀ r ∈ recs, r.item_code = item → r.channel = channel → r.company = company →
        r.name ≠ self_name → isLiveStatus r.status = true →
        ¬ intervalsIntersect F T r.effective_from r.effective_to) := by
  have hmem : ∀ n, n ∈ checkOverlappingPrice recs item channel company self_name F T ↔
      ∃ r ∈ recs, r.name = n ∧ r.item_code = item ∧ r.channel = channel ∧
        r.company = company ∧ r.name ≠ self_name ∧ isLiveStatus r.status = true ∧
        intervalsIntersect F T r.effective_from r.effective_to := by
    intro n
    unfold checkOverlappingPrice
    simp only [List.mem_map, List.mem_filter, Bool.not_eq_true]
    constructor
    · rintro ⟨r, ⟨⟨hr, hfetch⟩, hno⟩, hname⟩
      obtain ⟨h1, h2, h3, h4, h5, h6⟩ :=
        (overlap_record_iff item channel company self_name F T r).mp
          ⟨hfetch, by simpa using hno⟩
      exact ⟨r, hr, hname, h1, h2, h3, h4, h5, h6⟩
    · rintro ⟨r, hr, hname, h1, h2, h3, h4, h5, h6⟩
      obtain ⟨hfetch, hno⟩ :=
        (overlap_record_iff item channel company self_name F T r).mpr ⟨h1, h2, h3, h4, h5, h6⟩
      exact ⟨r, ⟨⟨hr, hfetch⟩, by simpa using hno⟩, hname⟩
  refine ⟨hmem, ?_⟩
  rw [List.eq_nil_iff_forall_not_mem]
  constructor
  · intro hnone r hr h1 h2 h3 h4 h5 h6
    exact hnone r.name ((hmem r.name).mpr ⟨r, hr, rfl, h1, h2, h3, h4, h5, h6⟩)
  · intro hall n hn
    obtain ⟨r, hr, _, h1, h2, h3, h4, h5, h6⟩ := (hmem n).mp hn
    exact hall r hr h1 h2 h3 h4 h5 h6

/-- Witness for C1: the claim's lifecycle scenario — a second record for
the same key, days 14 to 45, against an existing Active record covering
days 0 to 30 — is named as a conflict. -/
theorem overlap_check_correct_witness :
    "PRICE-1" ∈ checkOverlappingPrice [pJan] "A" "POS" "" "new" 14 (some 45) :=
  ((overlap_check_correct [pJan] "A" "POS" "" "new" 14 (some 45)).1 "PRICE-1").mpr
    ⟨pJan, by decide, by decide, by decide, by decide, by decide, by decide, by decide,
      by decide⟩

/-! Claim C4. -/

/-- Claim C4 (code bug): `get_active_price` fetches only the record with
the latest `effective_from` (limit 1, no `effective_to` condition) and
then discards it when its end date has passed, so with an open-ended
Active record from day 0 and a later record covering days 30 to 40, a
query on day 60 reports found = false even though the open-ended record
covers day 60 — and the grid's own selection for the same state picks
exactly that covering record. This contradicts the module's rule-engine
docstring ("records whose date-range covers the date, pick the one with
latest effective_from"). -/
theorem active_price_misses_covering_record :
    (getActivePrice [pOpenEnded, pLaterExpired] [] "A" "POS" 60).found = false ∧
    pOpenEnded.item_code = "A" ∧ pOpenEnded.channel = "POS" ∧
    isLiveStatus pOpenEnded.status = true ∧ coversAsOf 60 pOpenEnded = true ∧
    pickGridPrice [pOpenEnded, pLaterExpired] ["A"] none 60 none "A" "POS" =
      some pOpenEnded := by
  decide

/-! Claim C5. -/

/-- Claim C5 (confirmed): under a company filter C, the grid's price,
offer and tag fetches keep a row exactly when the other conditions hold
and the row's company is C or blank (blank modelling both the empty
string and NULL, which the source's `["in", [company, "", None]]` filter
both admits); with no company filter the company field is never
consulted. -/
theorem company_scoping (asOf : Int) (codes : List String) (r : PriceRec) (o : OfferRec)
    (t : TagRec) (tagF : Option String) (C c : String) :
    (companyScope none c = true) ∧
    (companyScope (some C) "" = true) ∧
    (companyScope (some C) C = true) ∧
    (c ≠ C → c ≠ "" → companyScope (some C) c = false) ∧
    (gridPriceFilter codes (some C) asOf r = true ↔
      gridPriceFilter codes none asOf r = true ∧ (r.company = C ∨ r.company = "")) ∧
    (gridOfferFilter codes (some C) asOf o = true ↔
      gridOfferFilter codes none asOf o = true ∧ (o.company = C ∨ o.company = "")) ∧
    (gridTagFilter codes (some C) tagF t = true ↔
      gridTagFilter codes none tagF t = true ∧ (t.company = C ∨ t.company = "")) := by
  unfold gridPriceFilter gridOfferFilter gridTagFilter companyScope
  refine ⟨rfl, by simp, by simp, ?_, ?_, ?_, ?_⟩
  · intro h1 h2
    simp [h1, h2]
  · simp
  · simp
  · simp
    tauto

/-- Witness for C5: company "Y" is filtered out under filter "X". -/
theorem company_scoping_witness :
    companyScope (some "X") "Y" = false :=
  (company_scoping 0 ["A"] pOpenEnded oAmount100 tNewTag none "X" "Y").2.2.2.1
    (by decide) (by decide)

/-! Claim C6. -/

/-- Counterexample to claim C6 as stated: with channel "POS" requested,
the grid still counts the approved active offer scoped to channel "Web"
(offer_count = 1 and has_bank_offer = true on the only row), while
`get_active_price` for the same state and channel excludes it (the
resolver receives no offers). The grid's offer fetch simply has no
channel condition. -/
theorem offer_channel_scoping_cex :
    ((getReadyReckonerRows ["A"] ["POS", "Web"] [] [oWebOffer] [] (some "POS") none
      10 none none).map (fun row => row.offer_count)) = [1] ∧
    ((getReadyReckonerRows ["A"] ["POS", "Web"] [] [oWebOffer] [] (some "POS") none
      10 none none).map (fun row => row.has_bank_offer)) = [true] ∧
    oWebOffer.channel = "Web" ∧ ("Web" : String) ≠ "POS" ∧
    (getActivePrice [pOpenEnded] [oWebOffer] "A" "POS" 10).best.empty = true ∧
    (getActivePrice [pOpenEnded] [oWebOffer] "A" "POS" 10).has_bank_offer = false := by
  decide

/-- Claim C6 (amended): in `get_active_price` an offer is passed to the
resolver and counted exactly when, besides the status, approval and date
conditions, its channel equals the requested channel or is blank; the
Ready Reckoner grid applies no channel condition to offers at all — its
per-item offer list is invariant under the offer's channel and admits
offers of every channel even when a single channel is requested. -/
theorem offer_channel_scoping (offers : List OfferRec) (item ch : String) (asOf : Int)
    (o : OfferRec) (codes : List String) (companyF : Option String) (c2 : String) :
    (o ∈ activeOffersFor offers item ch asOf ↔
      o ∈ offers ∧ o.item_code = item ∧ isLiveStatus o.status = true ∧
      o.approval = Approval.approved ∧ o.start_date ≤ asOf ∧ asOf ≤ o.end_date ∧
      (o.channel = ch ∨ o.channel = "")) ∧
    (gridOfferFilter codes companyF asOf { o with channel := c2 } =
      gridOfferFilter codes companyF asOf o) ∧
    (o ∈ rowOffersFor offers codes companyF asOf item ↔
      o ∈ offers ∧ o.item_code ∈ codes ∧ isLiveStatus o.status = true ∧
      o.approval = Approval.approved ∧ o.start_date ≤ asOf ∧ asOf ≤ o.end_date ∧
      companyScope companyF o.company = true ∧ o.item_code = item) := by
  refine ⟨?_, ?_, ?_⟩
  · simp [activeOffersFor, List.mem_filter]
    tauto
  · simp [gridOfferFilter]
  · simp [rowOffersFor, List.mem_filter, gridOfferFilter]
    tauto

/-- Witness for C6: the Web-channel offer is admitted by
`get_active_price` when the Web channel itself is requested. -/
theorem offer_channel_scoping_witness :
    oWebOffer ∈ activeOffersFor [oWebOffer] "A" "Web" 10 :=
  ((offer_channel_scoping [oWebOffer] "A" "Web" 10 oWebOffer ["A"] none "POS").1).mpr
    (by decide)

/-! Claim C8. -/

theorem sweepPrice_idem (today : Int) (p : SwPrice) :
    sweepPrice today (sweepPrice today p) = sweepPrice today p := by
  rcases p with ⟨st, f, tod, m, e⟩
  unfold sweepPrice sweepPriceActivate sweepPriceExpire
  cases st <;> simp [isLiveStatus] <;> split_ifs <;> simp_all [isLiveStatus]

theorem sweepOffer_idem (now : Int) (o : SwOffer) :
    sweepOffer now (sweepOffer now o) = sweepOffer now o := by
  rcases o with ⟨st, ap, sd, ed, m, e⟩
  unfold sweepOffer sweepOfferActivate sweepOfferExpire
  cases st <;> cases ap <;> simp [isLiveStatus] <;> split_ifs <;> simp_all [isLiveStatus]

theorem sweepTag_idem (today : Int) (t : SwTag) :
    sweepTag today (sweepTag today t) = sweepTag today t := by
  rcases t with ⟨st, tod, m⟩
  unfold sweepTag
  cases st <;> simp <;> split_ifs <;> simp_all

theorem retractErpPrice_idem (today : Int) (ids : List Nat) (e : Nat × Option Int) :
    retractErpPrice today ids (retractErpPrice today ids e) = retractErpPrice today ids e := by
  rcases e with ⟨i, v⟩
  unfold retractErpPrice
  split_ifs with h1 h2 <;> simp_all

theorem disableRule_idem (ids : List Nat) (r : Nat × Bool) :
    disableRule ids (disableRule ids r) = disableRule ids r := by
  rcases r with ⟨i, b⟩
  unfold disableRule
  split_ifs with h1 h2 <;> simp_all

/-- Counterexample to claim C8 as stated: an Active offer whose end date
has long passed but whose approval_status is still Pending is left
untouched by the sweep — the offer UPDATE statements additionally
require `approval_status = 'Approved'`, which the claim's transition
description omits. -/
theorem sweep_transitions_cex :
    (sweepOnce 10 10 stPendingOnly).offers = [oStalePending] ∧
    isLiveStatus oStalePending.status = true ∧
    pastEndDate 10 oStalePending.end_date = true ∧
    oStalePending.status ≠ RecStatus.expired := by
  decide

/-- Claim C8 (amended): one sweep pass is idempotent — running it twice
at the same date and time leaves the same price, offer and tag statuses
and the same downstream retraction state as running it once. Each pass
applies exactly these per-record transitions: prices and tags go
{Active, Scheduled} to Expired when their set end date has passed (tags
from Active only), Scheduled prices whose window covers today go Active;
offers follow the same pattern against the current datetime but only
when approved — a non-approved offer, like every Draft record, is never
touched. -/
theorem sweep_idempotent_and_transitions (today now : Int) :
    (∀ s : SweepState, sweepOnce today now (sweepOnce today now s) = sweepOnce today now s) ∧
    (∀ p : SwPrice, p.status = .draft → sweepPrice today p = p) ∧
    (∀ o : SwOffer, o.approval ≠ .approved → sweepOffer now o = o) ∧
    (∀ p : SwPrice, sweepPrice today p = p ∨
      (isLiveStatus p.status = true ∧ pastEndDate today p.effective_to = true ∧
        sweepPrice today p = { p with status := .expired, modified := today }) ∨
      (p.status = .scheduled ∧ pastEndDate today p.effective_to = false ∧
        p.effective_from ≤ today ∧
        sweepPrice today p = { p with status := .active, modified := today })) ∧
    (∀ o : SwOffer, sweepOffer now o = o ∨
      (isLiveStatus o.status = true ∧ o.approval = .approved ∧
        pastEndDate now o.end_date = true ∧
        sweepOffer now o = { o with status := .expired, modified := now }) ∨
      (o.status = .scheduled ∧ o.approval = .approved ∧
        (∃ sd, o.start_date = some sd ∧ sd ≤ now) ∧ pastEndDate now o.end_date = false ∧
        sweepOffer now o = { o with status := .active, modified := now })) ∧
    (∀ t : SwTag, sweepTag today t = t ∨
      (t.status = .active ∧ pastEndDate today t.effective_to = true ∧
        sweepTag today t = { t with status := .expired, modified := today })) := by
  refine ⟨?_, ?_, ?_, ?_, ?_, ?_⟩
  · intro s
    unfold sweepOnce
    have hp := map_idem_of_idem (sweepPrice today) (sweepPrice_idem today) s.prices
    have ho := map_idem_of_idem (sweepOffer now) (sweepOffer_idem now) s.offers
    have ht := map_idem_of_idem (sweepTag today) (sweepTag_idem today) s.tags
    simp only [hp, ho, ht]
    refine congrArg₂ (fun a b => SweepState.mk (s.prices.map (sweepPrice today))
      (s.offers.map (sweepOffer now)) (s.tags.map (sweepTag today)) a b) ?_ ?_
    · exact map_idem_of_idem _ (retractErpPrice_idem today _) s.erp_item_prices
    · exact map_idem_of_idem _ (disableRule_idem _) s.pricing_rules
  · intro p hp
    rcases p with ⟨st, f, tod, m, e⟩
    cases hp
    simp [sweepPrice, sweepPriceActivate, sweepPriceExpire, isLiveStatus]
  · intro o hap
    rcases o with ⟨st, ap, sd, ed, m, e⟩
    unfold sweepOffer sweepOfferActivate sweepOfferExpire
    cases ap <;> simp_all [isLiveStatus]
  · intro p
    rcases p with ⟨st, f, tod, m, e⟩
    unfold sweepPrice sweepPriceActivate sweepPriceExpire
    cases st <;> simp [isLiveStatus] <;> split_ifs <;> simp_all [isLiveStatus, not_lt]
  · intro o
    rcases o with ⟨st, ap, sd, ed, m, e⟩
    unfold sweepOffer sweepOfferActivate sweepOfferExpire
    cases st <;> cases ap <;> simp [isLiveStatus] <;> split_ifs <;>
      simp_all [isLiveStatus, not_lt] <;> cases sd <;> simp_all
  · intro t
    rcases t with ⟨st, tod, m⟩
    unfold sweepTag
    cases st <;> simp <;> split_ifs <;> simp_all

/-- Witness for C8: at a concrete state with one expirable synced price,
running the sweep twice equals running it once, and a stale Draft row is
untouched. -/
theorem sweep_idempotent_and_transitions_witness :
    sweepOnce 10 10 (sweepOnce 10 10 stSweep) = sweepOnce 10 10 stSweep ∧
    pDraftStale.status = RecStatus.draft ∧
    sweepPrice 10 pDraftStale = pDraftStale :=
  ⟨(sweep_idempotent_and_transitions 10 10).1 stSweep, by decide,
    (sweep_idempotent_and_transitions 10 10).2.1 pDraftStale (by decide)⟩

end CHItemMaster
